import Mathlib

/-
Verification of the Git subscriber sync loop and the Ansible hook registry of
the multicloud-operators-subscription repository.

The definitions below are a shallow embedding of the Go source:
  * the hook registry (HookProcessor / AnsibleHooks, package mcmhub),
  * the Git subscriber item reconcile tick (package git, git_subscriber_item.go).

External collaborators (the Kubernetes client, the Git transport, the YAML
parser, the kustomize binary, the apply engine) are passed in as explicit
inputs or function parameters, so every definition is executable.
-/

namespace MCSub

/-! ## Shared basics -/

/-- Models Go strings.EqualFold (ASCII case folding suffices for the strings
compared by this code base).  Written over the character lists so that it
reduces inside the kernel. -/
def strEqFold (a b : String) : Bool :=
  a.data.map Char.toLower == b.data.map Char.toLower

/-- Go map[string]string access: a missing key yields the empty string. -/
def annoGet (m : List (String × String)) (k : String) : String :=
  match m.find? (fun p => p.1 == k) with
  | some p => p.2
  | none => ""

/-- Go map[string]string assignment m[k] = v. -/
def annoSet (m : List (String × String)) (k v : String) : List (String × String) :=
  if m.any (fun p => p.1 == k) then m.map (fun p => if p.1 == k then (k, v) else p)
  else m ++ [(k, v)]

/-- k8s types.NamespacedName. -/
structure NamespacedName where
  name : String
  nspace : String
deriving DecidableEq, Repr

/-! ## Hook registry (package mcmhub, AnsibleHooks)

Constants from the Go source. -/

def PreHookType : String := "pre"

def PostHookType : String := "post"

def JobCompleted : String := "successful"

/-- An applied AnsibleJob instance; only the identity and reported status
string matter to the registry logic under verification. -/
structure AnsibleJob where
  name : String
  status : String
deriving DecidableEq, Repr

/-- JobInstances: the ordered ledger of applied job instances of one hook
slot. -/
abbrev JobInstances := List AnsibleJob

/-- The subscription fields read by the hook registry. -/
structure HookSubscription where
  name : String
  nspace : String
  channel : String
  generation : Nat
deriving DecidableEq, Repr

/-- The channel fields read by the hook registry. -/
structure Channel where
  ctype : String
deriving DecidableEq, Repr

/-- Hooks: per-subscription slot pair plus the subscription snapshot taken at
the last hook materialization.  The Go fields preHooks/postHooks are pointers
(*JobInstances), hence the Option. -/
structure Hooks where
  preHooks : Option JobInstances
  postHooks : Option JobInstances
  lastSub : HookSubscription
deriving DecidableEq, Repr

/-- AnsibleHooks: the registry map keyed by subscription NamespacedName,
modelled as an association list. -/
structure AnsibleHooks where
  registry : List (NamespacedName × Hooks)
deriving DecidableEq, Repr

/-- Go map access a.registry[subKey]: a missing key yields the nil pointer,
modelled as none. -/
def registryFind (a : AnsibleHooks) (k : NamespacedName) : Option Hooks :=
  match a.registry.find? (fun p => p.1 == k) with
  | some p => some p.2
  | none => none

/-- a.isRegistered: a.registry[subKey] != nil. -/
def isRegistered (a : AnsibleHooks) (k : NamespacedName) : Bool :=
  (registryFind a k).isSome

/-- The Go test hks == nil || len(*hks) == 0 on a hook slot. -/
def slotEmpty : Option JobInstances → Bool
  | none => true
  | some l => l.isEmpty

/-- IsPreHooksCompleted.  The poll parameter stands for
JobInstances.isJobsCompleted, which queries the cluster for each tracked
instance (its code lives outside the given sources); the guards modelled here
never reach it for unregistered keys or empty slots. -/
def IsPreHooksCompleted (poll : JobInstances → Bool × Option String)
    (a : AnsibleHooks) (k : NamespacedName) : Bool × Option String :=
  match registryFind a k with
  | none => (true, none)
  | some h =>
    match h.preHooks with
    | none => (true, none)
    | some hks => if hks.isEmpty then (true, none) else poll hks

/-- IsPostHooksCompleted.  The Go body reads a.registry[subKey].postHooks with
no isRegistered guard: on an unregistered key the map yields a nil *Hooks and
the field selection dereferences it, a runtime panic, modelled as none. -/
def IsPostHooksCompleted (poll : JobInstances → Bool × Option String)
    (a : AnsibleHooks) (k : NamespacedName) : Option (Bool × Option String) :=
  match registryFind a k with
  | none => none
  | some h =>
    match h.postHooks with
    | none => some (true, none)
    | some hks => if hks.isEmpty then some (true, none) else some (poll hks)

/-- HasHooks.  Note the Go control flow: for hookType == "pre" the pre slot is
checked, and then control falls through to the post-slot check shared with the
"post" case, so the pre answer also requires a non-empty post slot. -/
def HasHooks (a : AnsibleHooks) (hookType : String) (k : NamespacedName) : Bool :=
  match registryFind a k with
  | none => false
  | some h =>
    if hookType == PreHookType && slotEmpty h.preHooks then false
    else !slotEmpty h.postHooks

/-- ApplyPreHooks: when HasHooks holds for the pre side, applyJobs submits the
pre ledger; the returned list is the set of instances handed to the cluster
(empty list = no-op). -/
def ApplyPreHooks (a : AnsibleHooks) (k : NamespacedName) : JobInstances :=
  if HasHooks a PreHookType k then
    match registryFind a k with
    | some h => h.preHooks.getD []
    | none => []
  else []

/-- ApplyPostHooks, symmetric to ApplyPreHooks over the post slot. -/
def ApplyPostHooks (a : AnsibleHooks) (k : NamespacedName) : JobInstances :=
  if HasHooks a PostHookType k then
    match registryFind a k with
    | some h => h.postHooks.getD []
    | none => []
  else []

/-- The pre/post pair of last-applied instance identifiers (Go struct
AppliedInstance with fields pre, post). -/
structure LastApplied where
  pre : String
  post : String
deriving DecidableEq, Repr

/-- GetLastAppliedInstance.  The lastAppliedOf parameter stands for
outputAppliedJobs(formatAnsibleFromTopo).lastApplied, whose code lives outside
the given sources; an unregistered key returns the zero AppliedInstance before
it is ever consulted. -/
def getLastAppliedInst (lastAppliedOf : Option JobInstances → String)
    (a : AnsibleHooks) (k : NamespacedName) : LastApplied :=
  match registryFind a k with
  | none => { pre := "", post := "" }
  | some h => { pre := lastAppliedOf h.preHooks, post := lastAppliedOf h.postHooks }

/-! ### RegisterSubscription -/

/-- Result of a Kubernetes client Get: found object, a NotFound error, or any
other error. -/
inductive GetResult (α : Type) where
  | found (x : α)
  | notFound
  | otherError (msg : String)
deriving DecidableEq, Repr

/-- Outcome of RegisterSubscription: an error returned, a nil return without
touching the registry, or continuing into hook download/registration. -/
inductive RegisterOutcome where
  | errorOut (msg : String)
  | noop
  | proceed
deriving DecidableEq, Repr

def ChannelTypeGit : String := "git"

def ChannelTypeGitHub : String := "github"

/-- isSubscriptionSpecChange: generations differ. -/
def isSubscriptionSpecChange (o n : HookSubscription) : Bool :=
  o.generation != n.generation

/-- isSubscriptionUpdate: an unregistered subscription counts as changed,
otherwise compare with the registered snapshot. -/
def isSubscriptionUpdate (a : AnsibleHooks) (subIns : HookSubscription)
    (isNotEqual : HookSubscription → HookSubscription → Bool) : Bool :=
  match registryFind a ⟨subIns.name, subIns.nspace⟩ with
  | none => true
  | some record => isNotEqual record.lastSub subIns

/-- RegisterSubscription guard chain.  getSub and getChn model the client Gets
and chnKeyOf models utils.NamespacedNameFormat on subIns.Spec.Channel.  The
subscription Get filters IsNotFound to a nil return; the channel Get returns
any error, NotFound included, to the caller. -/
def RegisterSubscription (getSub : NamespacedName → GetResult HookSubscription)
    (getChn : NamespacedName → GetResult Channel)
    (chnKeyOf : String → NamespacedName)
    (a : AnsibleHooks) (subKey : NamespacedName) : RegisterOutcome :=
  match getSub subKey with
  | .notFound => .noop
  | .otherError e => .errorOut e
  | .found subIns =>
    match getChn (chnKeyOf subIns.channel) with
    | .notFound => .errorOut "channel not found"
    | .otherError e => .errorOut e
    | .found chn =>
      if !(strEqFold chn.ctype ChannelTypeGit) && !(strEqFold chn.ctype ChannelTypeGitHub) then
        .noop
      else if !(isSubscriptionUpdate a subIns isSubscriptionSpecChange) then
        .noop
      else
        .proceed

/-! ## Git subscriber item (package git, git_subscriber_item.go)

Annotation key constants from pkg/apis/apps/v1. -/

def AnnotationClusterAdmin : String := "apps.open-cluster-management.io/cluster-admin"

def AnnotationResourceReconcileOption : String := "apps.open-cluster-management.io/reconcile-option"

def AnnotationUserIdentity : String := "open-cluster-management.io/user-identity"

def AnnotationUserGroup : String := "open-cluster-management.io/user-group"

def MergeReconcile : String := "merge"

/-- A parsed Kubernetes manifest; this carries exactly the pieces the
subscriber reads or writes (TypeMeta, name, namespace, labels, annotations of
the unstructured object). -/
structure Manifest where
  apiVersion : String
  kind : String
  name : String
  nspace : String
  labels : List (String × String)
  annotations : List (String × String)
deriving DecidableEq, Repr

/-- GroupVersionKind. -/
structure Gvk where
  group : String
  version : String
  kind : String
deriving DecidableEq, Repr

/-- Splits a character list at every slash (the splitting performed on
apiVersion values, written structurally so it reduces in the kernel). -/
def splitCharsOnSlash : List Char → List (List Char)
  | [] => [[]]
  | c :: rest =>
    let r := splitCharsOnSlash rest
    if c == '/' then [] :: r
    else
      match r with
      | [] => [[c]]
      | g :: gs => (c :: g) :: gs

/-- GroupVersionKind of a manifest, per k8s ParseGroupVersion on apiVersion. -/
def gvkOfManifest (m : Manifest) : Gvk :=
  match (splitCharsOnSlash m.apiVersion.data).map String.mk with
  | [v] => ⟨"", v, m.kind⟩
  | [g, v] => ⟨g, v, m.kind⟩
  | _ => ⟨"", m.apiVersion, m.kind⟩

/-- kubesynchronizer.ResourceUnit: the transformed object plus its gvk. -/
abbrev ResourceUnit := Manifest × Gvk

/-- The HelmRelease gvk stamped on generated helm release manifests. -/
def helmGvk : Gvk := ⟨"apps.open-cluster-management.io", "v1", "HelmRelease"⟩

/-- The per-subscription data the transform pipeline reads.  Function-valued
fields stand for external collaborators: isNamespaced for
synchronizer.IsResourceNamespaced, overrideFn for
utils.OverrideResourceBySubscription, labelSelectorCheck for
utils.LabelChecker applied to the label selector of the subscription, and
setPartOfLabel for utils.SetPartOfLabel. -/
structure GitSubscriberCtx where
  subNamespace : String
  reconcileRate : String
  webhookEnabled : Bool
  clusterAdmin : Bool
  currentNamespaceScoped : Bool
  userID : String
  userGroup : String
  package : String
  hasPackageFilter : Bool
  filterAnnotations : Option (List (String × String))
  hasPackageOverrides : Bool
  overrideFn : Manifest → Except String Manifest
  subAnnotations : Option (List (String × String))
  isNamespaced : Manifest → Bool
  labelSelectorCheck : List (String × String) → Bool
  setPartOfLabel : Manifest → Manifest

/-- checkFilters: name filter, then label selector, then annotation map; a
non-empty string means the manifest is skipped. -/
def checkFilters (ctx : GitSubscriberCtx) (rsc : Manifest) : String :=
  if ctx.package ≠ "" ∧ ctx.package ≠ rsc.name then
    "Name does not match, skiping:" ++ ctx.package ++ "|" ++ rsc.name
  else if ctx.hasPackageFilter then
    if ctx.labelSelectorCheck rsc.labels then
      match ctx.filterAnnotations with
      | none => ""
      | some annos =>
        if annos.all (fun p => annoGet rsc.annotations p.1 == p.2) then ""
        else "Failed to pass annotation check to manifest " ++ rsc.name
    else "Failed to pass label check on resource " ++ rsc.name
  else ""

/-- Result of subscribeResource: a hard error, a silent skip, or the
transformed resource with its gvk. -/
inductive TransformResult where
  | terr (msg : String)
  | skip
  | ok (r : Manifest) (gvk : Gvk)
deriving Repr

/-- subscribeResource: the per-manifest transform pipeline (namespace-scoping
policy, package filter, package override, annotation propagation, part-of
label). -/
def subscribeResource (ctx : GitSubscriberCtx) (m : Manifest) : TransformResult :=
  let validgvk := gvkOfManifest m
  let rsc := m
  let rsc :=
    if ctx.isNamespaced rsc then
      if ctx.clusterAdmin then
        let rsc :=
          if rsc.nspace ≠ "" then
            if ctx.currentNamespaceScoped then { rsc with nspace := ctx.subNamespace } else rsc
          else { rsc with nspace := ctx.subNamespace }
        if strEqFold validgvk.group "apps.open-cluster-management.io" ∧
            strEqFold rsc.kind "Subscription" then
          { rsc with annotations := annoSet rsc.annotations AnnotationClusterAdmin "true" }
        else rsc
      else { rsc with nspace := ctx.subNamespace }
    else rsc
  if ctx.hasPackageFilter ∧ checkFilters ctx rsc ≠ "" then .skip
  else
    match (if ctx.hasPackageOverrides then ctx.overrideFn rsc else .ok rsc) with
    | .error e => .terr ("Failed override package " ++ rsc.name ++ " with error: " ++ e)
    | .ok rsc =>
      let rsc :=
        match ctx.subAnnotations with
        | none => rsc
        | some subAnnos =>
          let ra := rsc.annotations
          let ra := if strEqFold (annoGet subAnnos AnnotationClusterAdmin) "true" then
              annoSet ra AnnotationClusterAdmin "true"
            else ra
          let ra :=
            if annoGet ra AnnotationResourceReconcileOption == "" then
              if annoGet subAnnos AnnotationResourceReconcileOption ≠ "" then
                annoSet ra AnnotationResourceReconcileOption
                  (annoGet subAnnos AnnotationResourceReconcileOption)
              else annoSet ra AnnotationResourceReconcileOption MergeReconcile
            else ra
          { rsc with annotations := ra }
      .ok (ctx.setPartOfLabel rsc) validgvk

/-- subscribeResourceFile: run the transform; only an ok result contributes a
ResourceUnit to the aggregate (errors are logged, skips dropped). -/
def subscribeResourceFile (ctx : GitSubscriberCtx) (m : Manifest) : List ResourceUnit :=
  match subscribeResource ctx m with
  | .ok r g => [(r, g)]
  | _ => []

/-- One resource file handed to subscribeResources: either os.ReadFile failed,
or it parsed into YAML chunks (none = a chunk yaml.Unmarshal rejected). -/
inductive RscFile where
  | readErr (msg : String)
  | chunks (cs : List (Option Manifest))
deriving DecidableEq, Repr

/-- The chunk loop of subscribeResources: malformed chunks are skipped; a
Subscription-kind chunk gets the acting-user and acting-group identity
annotations injected before the transform. -/
def processChunks (ctx : GitSubscriberCtx) : List (Option Manifest) → List ResourceUnit
  | [] => []
  | none :: rest => processChunks ctx rest
  | some m :: rest =>
    let m' := if m.kind == "Subscription" then
        { m with annotations :=
            (annoSet (annoSet m.annotations AnnotationUserIdentity ctx.userID)
              AnnotationUserGroup ctx.userGroup) }
      else m
    subscribeResourceFile ctx m' ++ processChunks ctx rest

/-- subscribeResources: per-file loop; a file read error aborts the loop and
is returned, leaving the units contributed by earlier files in place. -/
def subscribeResources (ctx : GitSubscriberCtx) :
    List RscFile → List ResourceUnit × Option String
  | [] => ([], none)
  | .readErr e :: _ => ([], some e)
  | .chunks cs :: rest =>
    let r := subscribeResources ctx rest
    (processChunks ctx cs ++ r.1, r.2)

/-- checkSubscriptionAnnotation: the privilege-escalation guard run on each
resource of a kustomize build output. -/
def checkSubscriptionAnno (resource : Manifest) : Option String :=
  if strEqFold resource.apiVersion "apps.open-cluster-management.io/v1" &&
      strEqFold resource.kind "Subscription" then
    if strEqFold (annoGet resource.annotations AnnotationClusterAdmin) "true" then
      some ("contains " ++ AnnotationClusterAdmin ++ " = true annotation.")
    else none
  else none

/-- The chunk loop of subscribeKustomizations: non-resources are skipped, the
checkSubscriptionAnnotation error is collected on the log side only, and
subscribeResourceFile runs on every resource regardless. -/
def kustomizeChunks (ctx : GitSubscriberCtx) :
    List (Option Manifest) → List ResourceUnit × List String
  | [] => ([], [])
  | none :: rest => kustomizeChunks ctx rest
  | some m :: rest =>
    let r := kustomizeChunks ctx rest
    if m.apiVersion == "" || m.kind == "" then r
    else
      match checkSubscriptionAnno m with
      | some e => (subscribeResourceFile ctx m ++ r.1, e :: r.2)
      | none => (subscribeResourceFile ctx m ++ r.1, r.2)

/-- One kustomize root: the outcome of utils.VerifyAndOverrideKustomize and of
utils.RunKustomizeBuild followed by utils.ParseYAML. -/
structure KustomizeDirInput where
  overrideErr : Option String
  buildResult : Except String (List (Option Manifest))
deriving Repr

/-- subscribeKustomizations: per-root loop over the current aggregate; an
override or build failure clears the whole aggregate and is returned.  The
third component collects the logged checkSubscriptionAnnotation errors. -/
def subscribeKustomizations (ctx : GitSubscriberCtx) :
    List KustomizeDirInput → List ResourceUnit → List ResourceUnit × Option String × List String
  | [], resources => (resources, none, [])
  | d :: rest, resources =>
    match d.overrideErr with
    | some e => ([], some e, [])
    | none =>
      match d.buildResult with
      | .error e => ([], some e, [])
      | .ok cs =>
        let kc := kustomizeChunks ctx cs
        let r := subscribeKustomizations ctx rest (resources ++ kc.1)
        (r.1, r.2.1, kc.2 ++ r.2.2)

/-- subscribeHelmCharts: one CreateHelmCRManifest outcome per index entry; an
error stops the loop, keeping the units contributed before it. -/
def subscribeHelmCharts : List (Except String Manifest) → List ResourceUnit × Option String
  | [] => ([], none)
  | .error e :: _ => ([], some e)
  | .ok m :: rest =>
    let r := subscribeHelmCharts rest
    ((m, helmGvk) :: r.1, r.2)

/-- The classification output of sortClonedGitRepo (utils.SortResources plus
the generated helm index). -/
structure SortedBuckets where
  chartDirs : List String
  kustomizeDirs : List KustomizeDirInput
  crdsAndNamespaceFiles : List RscFile
  rbacFiles : List RscFile
  otherFiles : List RscFile
  indexFile : List (Except String Manifest)
deriving Repr

/-- The external outcomes one reconcile tick consumes: the clone, the
classification, and the apply engine. -/
structure TickEnv where
  cloneResult : Except String String
  sortResult : Except String SortedBuckets
  processSubResources : List ResourceUnit → Option String

/-- The mutable per-subscription fields of SubscriberItem that doSubscription
reads and writes. -/
structure SubscriberItemState where
  commitID : String
  count : Nat
  successful : Bool
  resources : List ResourceUnit
  chartDirs : List String
  kustomizeDirs : List KustomizeDirInput
  crdsAndNamespaceFiles : List RscFile
  rbacFiles : List RscFile
  otherFiles : List RscFile
  indexFile : Option (List (Except String Manifest))
deriving Repr

/-- The externally visible actions of a tick, in the order they happen. -/
inductive Action where
  | updateLastUpdateTime
  | clone
  | classify
  | updateOverallStatus (failed : Bool)
  | applyResources
deriving DecidableEq, Repr

/-- The reconcile-rate "medium" drift gate: increments the tick counter,
skips when the commit is unchanged and the last apply succeeded during the
first five ticks after a reset, and resets the counter on the sixth to force
a full resync.  Returns the updated state and whether the tick is skipped. -/
def mediumGate (ctx : GitSubscriberCtx) (s : SubscriberItemState) (commitID : String) :
    SubscriberItemState × Bool :=
  if strEqFold ctx.reconcileRate "medium" then
    let c := s.count + 1
    if s.commitID == "" then ({ s with count := c }, false)
    else if c < 6 then
      if commitID == s.commitID && s.successful then ({ s with count := c }, true)
      else ({ s with count := c }, false)
    else ({ s with count := 0 }, false)
  else (s, false)

/-- The outcome of the four resource buckets plus helm of one tick. -/
structure BucketOutcome where
  resources : List ResourceUnit
  e1 : Option String
  e2 : Option String
  e3 : Option String
  eK : Option String
  eH : Option String
deriving Repr

/-- runBuckets: crds-and-namespaces, rbac, other, kustomize (which may clear
everything), then helm. -/
def runBuckets (ctx : GitSubscriberCtx) (b : SortedBuckets) : BucketOutcome :=
  let r1 := subscribeResources ctx b.crdsAndNamespaceFiles
  let r2 := subscribeResources ctx b.rbacFiles
  let r3 := subscribeResources ctx b.otherFiles
  let rk := subscribeKustomizations ctx b.kustomizeDirs (r1.1 ++ r2.1 ++ r3.1)
  let rh := subscribeHelmCharts b.indexFile
  ⟨rk.1 ++ rh.1, r1.2, r2.2, r3.2, rk.2.1, rh.2⟩

/-- Whether any bucket of the tick failed (each failure sets
ghsi.successful = false). -/
def bucketsFailed (o : BucketOutcome) : Bool :=
  o.e1.isSome || o.e2.isSome || o.e3.isSome || o.eK.isSome || o.eH.isSome

/-- The errMsg concatenation of doSubscription: crd, rbac and other errors
joined by ", ", the kustomize error prefixed in front, the helm error
appended. -/
def appendErr (acc : String) (e : Option String) : String :=
  match e with
  | none => acc
  | some m => (if acc.length > 0 then acc ++ ", " else acc) ++ m

def tickErrMsg (e1 e2 e3 eK eH : Option String) : String :=
  let acc := appendErr (appendErr (appendErr "" e1) e2) e3
  let acc := match eK with
    | none => acc
    | some m =>
      ("failed to apply klustomization: " ++ m ++ (if acc.length > 0 then ", " else "")) ++ acc
  appendErr acc eH

/-- The apply phase: hand the aggregate to ProcessSubResources; on success
record the commit and clear every transient bucket, marking the item
successful. -/
def applyPhase (env : TickEnv) (s : SubscriberItemState) (commitID : String)
    (trace : List Action) : SubscriberItemState × Option String × List Action :=
  let trace := trace ++ [Action.applyResources]
  match env.processSubResources s.resources with
  | some e => ({ s with successful := false }, some e, trace)
  | none =>
    ({ s with
        commitID := commitID
        resources := []
        chartDirs := []
        kustomizeDirs := []
        crdsAndNamespaceFiles := []
        rbacFiles := []
        otherFiles := []
        indexFile := none
        successful := true }, none, trace)

/-- The post-classification part of a tick: store the buckets, run them, and
either fail hard on an empty unsuccessful aggregate (never reaching the apply
engine) or apply. -/
def bucketPhase (ctx : GitSubscriberCtx) (env : TickEnv) (s : SubscriberItemState)
    (commitID : String) (b : SortedBuckets) : SubscriberItemState × Option String × List Action :=
  let s := { s with
      chartDirs := b.chartDirs
      kustomizeDirs := b.kustomizeDirs
      crdsAndNamespaceFiles := b.crdsAndNamespaceFiles
      rbacFiles := b.rbacFiles
      otherFiles := b.otherFiles
      indexFile := some b.indexFile }
  let o := runBuckets ctx b
  let s := { s with resources := o.resources, successful := s.successful && !(bucketsFailed o) }
  let trace := [Action.updateLastUpdateTime, Action.clone, Action.classify] ++
    (if o.eK.isSome then [Action.updateOverallStatus true] else [])
  if s.resources.isEmpty && !s.successful then
    (s, some ((tickErrMsg o.e1 o.e2 o.e3 o.eK o.eH).take 2000), trace)
  else applyPhase env s commitID trace

/-- doSubscription: one reconcile tick.  Returns the new item state, the
error returned to the caller (none = nil) and the action trace.  The channel
secret/configmap refresh of the Go body touches neither the modelled state
nor the claims and is elided. -/
def doSubscription (ctx : GitSubscriberCtx) (env : TickEnv) (s : SubscriberItemState) :
    SubscriberItemState × Option String × List Action :=
  if ctx.webhookEnabled && s.successful then (s, none, [Action.updateLastUpdateTime])
  else
    match env.cloneResult with
    | .error e =>
      ({ s with successful := false }, some e, [Action.updateLastUpdateTime, Action.clone])
    | .ok commitID =>
      let mg := mediumGate ctx s commitID
      if mg.2 then (mg.1, none, [Action.updateLastUpdateTime, Action.clone])
      else
        let s1 := { mg.1 with resources := [] }
        match env.sortResult with
        | .error e =>
          ({ s1 with successful := false }, some e,
            [Action.updateLastUpdateTime, Action.clone, Action.classify])
        | .ok b => bucketPhase ctx env s1 commitID b

/-- The subscription phase written back after an attempt. -/
inductive SubPhase where
  | subscribed
  | failed
deriving DecidableEq, Repr

/-- doSubscriptionWithRetries: run the tick, record the status write
(Subscribed with empty message on nil, Failed with the error text otherwise),
and retry while the item is unsuccessful and retries remain. -/
def doSubscriptionWithRetries (ctx : GitSubscriberCtx) (env : TickEnv) :
    Nat → SubscriberItemState → SubscriberItemState × List (SubPhase × String) × List Action
  | 0, s =>
    let r := doSubscription ctx env s
    let w := match r.2.1 with
      | some e => (SubPhase.failed, e)
      | none => (SubPhase.subscribed, "")
    (r.1, [w], r.2.2)
  | n + 1, s =>
    let r := doSubscription ctx env s
    let w := match r.2.1 with
      | some e => (SubPhase.failed, e)
      | none => (SubPhase.subscribed, "")
    if !r.1.successful then
      let rest := doSubscriptionWithRetries ctx env n r.1
      (rest.1, w :: rest.2.1, r.2.2 ++ rest.2.2)
    else (r.1, [w], r.2.2)

/-! ## Fixtures and theorems for the hook registry claims -/

/-- A poll outcome standing for a cluster whose jobs have not completed; the
guards under test must answer before consulting it. -/
def pollNever : JobInstances → Bool × Option String := fun _ => (false, none)

def hookSubEx : HookSubscription := ⟨"sub1", "ns1", "chns/chn1", 1⟩

def keyEx : NamespacedName := ⟨"sub1", "ns1"⟩

/-- A registry with no subscriptions registered. -/
def emptyHooksReg : AnsibleHooks := ⟨[]⟩

/-- A registry where keyEx is registered with zero entries in both slots. -/
def regEmptySlots : AnsibleHooks := ⟨[(keyEx, ⟨some [], some [], hookSubEx⟩)]⟩

/-- C2: for an unregistered key IsPreHooksCompleted returns (true, nil) as
claimed, but IsPostHooksCompleted dereferences the nil registry entry and
panics (modelled as none) instead of returning (true, nil); for a registered
key with zero entries in both slots both calls return (true, nil). -/
theorem c2_posthooks_panics_on_unregistered_key :
    IsPreHooksCompleted pollNever emptyHooksReg keyEx = (true, none) ∧
    IsPostHooksCompleted pollNever emptyHooksReg keyEx = none ∧
    IsPreHooksCompleted pollNever regEmptySlots keyEx = (true, none) ∧
    IsPostHooksCompleted pollNever regEmptySlots keyEx = some (true, none) :=
  ⟨rfl, rfl, rfl, rfl⟩

def jobPre1 : AnsibleJob := ⟨"prejob-1", ""⟩

/-- A registry where keyEx has one pending pre hook and an empty post slot. -/
def regPreOnly : AnsibleHooks := ⟨[(keyEx, ⟨some [jobPre1], some [], hookSubEx⟩)]⟩

/-- C7: with one pre-hook entry and an empty post slot, HasHooks for the pre
side falls through to the post-slot check and answers false, so ApplyPreHooks
is a no-op even though its own slot has a pending instance: the pre decision
does not depend only on the pre slot. -/
theorem c7_apply_prehooks_noop_despite_pending_prehook :
    registryFind regPreOnly keyEx = some ⟨some [jobPre1], some [], hookSubEx⟩ ∧
    slotEmpty (some [jobPre1]) = false ∧
    HasHooks regPreOnly PreHookType keyEx = false ∧
    ApplyPreHooks regPreOnly keyEx = [] :=
  ⟨rfl, rfl, rfl, rfl⟩

/-- C10: GetLastAppliedInstance on a key with no registry entry returns the
zero AppliedInstance (both identifiers empty) without consulting the job
ledgers. -/
theorem c10_last_applied_unregistered_is_empty
    (lastAppliedOf : Option JobInstances → String)
    (a : AnsibleHooks) (k : NamespacedName) (h : registryFind a k = none) :
    getLastAppliedInst lastAppliedOf a k = ⟨"", ""⟩ := by
  unfold getLastAppliedInst
  rw [h]

/-- Witness for C10 at the empty registry. -/
theorem c10_last_applied_unregistered_is_empty_witness :
    registryFind emptyHooksReg keyEx = none ∧
    getLastAppliedInst (fun _ => "ledger") emptyHooksReg keyEx = ⟨"", ""⟩ :=
  ⟨rfl, c10_last_applied_unregistered_is_empty (fun _ => "ledger") emptyHooksReg keyEx rfl⟩

/-! ### C8: RegisterSubscription guard cases -/

def getSubFoundEx : NamespacedName → GetResult HookSubscription := fun _ => .found hookSubEx

def getSubNotFoundEx : NamespacedName → GetResult HookSubscription := fun _ => .notFound

def getChnNotFoundEx : NamespacedName → GetResult Channel := fun _ => .notFound

def getChnNamespaceEx : NamespacedName → GetResult Channel := fun _ => .found ⟨"namespace"⟩

def getChnGitEx : NamespacedName → GetResult Channel := fun _ => .found ⟨"Git"⟩

def chnKeyEx : String → NamespacedName := fun _ => ⟨"chn1", "chns"⟩

/-- C8 counterexample: when the referenced channel is not found, the Go code
returns the Get error unexamined (no IsNotFound filtering as done for the
subscription), so RegisterSubscription returns an error, not the claimed nil
no-op. -/
theorem c8_counterexample_channel_not_found_returns_error :
    RegisterSubscription getSubFoundEx getChnNotFoundEx chnKeyEx emptyHooksReg keyEx =
      .errorOut "channel not found" ∧
    RegisterSubscription getSubFoundEx getChnNotFoundEx chnKeyEx emptyHooksReg keyEx ≠
      .noop :=
  ⟨rfl, by decide⟩

/-- C8 (amended): RegisterSubscription returns nil without registering when
the subscription is not found, when the channel type is neither git nor
github (case-insensitively), or when the subscription generation is unchanged
since the last registration; a missing channel, by contrast, is an error. -/
theorem c8_register_subscription_noop_cases
    (getSub : NamespacedName → GetResult HookSubscription)
    (getChn : NamespacedName → GetResult Channel)
    (chnKeyOf : String → NamespacedName)
    (a : AnsibleHooks) (k : NamespacedName) :
    (getSub k = .notFound → RegisterSubscription getSub getChn chnKeyOf a k = .noop) ∧
    (∀ subIns chn, getSub k = .found subIns →
      getChn (chnKeyOf subIns.channel) = .found chn →
      strEqFold chn.ctype ChannelTypeGit = false →
      strEqFold chn.ctype ChannelTypeGitHub = false →
      RegisterSubscription getSub getChn chnKeyOf a k = .noop) ∧
    (∀ subIns chn h, getSub k = .found subIns →
      getChn (chnKeyOf subIns.channel) = .found chn →
      (strEqFold chn.ctype ChannelTypeGit = true ∨
        strEqFold chn.ctype ChannelTypeGitHub = true) →
      registryFind a ⟨subIns.name, subIns.nspace⟩ = some h →
      h.lastSub.generation = subIns.generation →
      RegisterSubscription getSub getChn chnKeyOf a k = .noop) := by
  refine ⟨?_, ?_, ?_⟩
  · intro h
    unfold RegisterSubscription
    rw [h]
  · intro subIns chn hs hc hg hgh
    simp only [RegisterSubscription, hs, hc, hg, hgh, Bool.not_false, Bool.and_self,
      if_true]
  · intro subIns chn h hs hc hgit hreg hgen
    have hupd : isSubscriptionUpdate a subIns isSubscriptionSpecChange = false := by
      unfold isSubscriptionUpdate
      rw [hreg]
      unfold isSubscriptionSpecChange
      simp [hgen]
    have hcond : (!(strEqFold chn.ctype ChannelTypeGit) &&
        !(strEqFold chn.ctype ChannelTypeGitHub)) = false := by
      rcases hgit with hg | hg <;> simp [hg]
    simp only [RegisterSubscription, hs, hc, hcond, hupd, Bool.not_false, if_true,
      Bool.false_eq_true, if_false]

/-- Witness for the amended C8 noop cases at concrete registries and clients. -/
theorem c8_register_subscription_noop_cases_witness :
    RegisterSubscription getSubNotFoundEx getChnGitEx chnKeyEx emptyHooksReg keyEx = .noop ∧
    RegisterSubscription getSubFoundEx getChnNamespaceEx chnKeyEx emptyHooksReg keyEx = .noop ∧
    RegisterSubscription getSubFoundEx getChnGitEx chnKeyEx regEmptySlots keyEx = .noop :=
  ⟨(c8_register_subscription_noop_cases getSubNotFoundEx getChnGitEx chnKeyEx
      emptyHooksReg keyEx).1 rfl,
   (c8_register_subscription_noop_cases getSubFoundEx getChnNamespaceEx chnKeyEx
      emptyHooksReg keyEx).2.1 hookSubEx ⟨"namespace"⟩ rfl rfl (by decide) (by decide),
   (c8_register_subscription_noop_cases getSubFoundEx getChnGitEx chnKeyEx
      regEmptySlots keyEx).2.2 hookSubEx ⟨"Git"⟩ ⟨some [], some [], hookSubEx⟩ rfl rfl
      (Or.inl (by decide)) rfl rfl⟩

/-! ## Fixtures and theorems for the Git subscriber claims -/

/-- A plain subscription context: no webhook, no package filter, no
overrides, no subscription annotations; every manifest is namespaced. -/
def ctxPlain : GitSubscriberCtx where
  subNamespace := "sub-ns"
  reconcileRate := "high"
  webhookEnabled := false
  clusterAdmin := false
  currentNamespaceScoped := false
  userID := "alice"
  userGroup := "devs"
  package := ""
  hasPackageFilter := false
  filterAnnotations := none
  hasPackageOverrides := false
  overrideFn := fun m => .ok m
  subAnnotations := none
  isNamespaced := fun _ => true
  labelSelectorCheck := fun _ => true
  setPartOfLabel := fun m => m

/-- The plain context under the "medium" reconcile rate. -/
def ctxMed : GitSubscriberCtx := { ctxPlain with reconcileRate := "medium" }

/-- A nested Subscription manifest carrying its own cluster-admin=true
annotation, as rendered by a kustomize build. -/
def childSubManifest : Manifest :=
  ⟨"apps.open-cluster-management.io/v1", "Subscription", "child-sub", "",
    [], [(AnnotationClusterAdmin, "true")]⟩

/-- A kustomize root whose build output is exactly the child subscription. -/
def badKustomizeDir : KustomizeDirInput := ⟨none, .ok [some childSubManifest]⟩

/-- C1: a kustomize-rendered Subscription manifest with a cluster-admin=true
annotation makes checkSubscriptionAnnotation return the guard error, but the
loop only logs it and still calls subscribeResourceFile, so the manifest is
appended to the aggregate resource list instead of being rejected. -/
theorem c1_cluster_admin_child_subscription_still_appended :
    checkSubscriptionAnno childSubManifest =
      some ("contains " ++ AnnotationClusterAdmin ++ " = true annotation.") ∧
    (subscribeKustomizations ctxPlain [badKustomizeDir] []).1 =
      [({ childSubManifest with nspace := "sub-ns" },
        ⟨"apps.open-cluster-management.io", "v1", "Subscription"⟩)] ∧
    (subscribeKustomizations ctxPlain [badKustomizeDir] []).2.1 = none ∧
    (subscribeKustomizations ctxPlain [badKustomizeDir] []).2.2 =
      ["contains " ++ AnnotationClusterAdmin ++ " = true annotation."] :=
  ⟨rfl, by decide, rfl, rfl⟩

/-! ### The medium-rate drift gate -/

/-- During the first five ticks after a counter reset, an unchanged commit
with a successful last apply skips the tick. -/
theorem mediumGate_skip (ctx : GitSubscriberCtx) (s : SubscriberItemState) (c : String)
    (hrate : ctx.reconcileRate = "medium") (hne : s.commitID ≠ "")
    (hlt : s.count + 1 < 6) (hcommit : s.commitID = c) (hsucc : s.successful = true) :
    mediumGate ctx s c = ({ s with count := s.count + 1 }, true) := by
  have h0 : (s.commitID == "") = false := by simp [hne]
  have h2 : (c == s.commitID) = true := by simp [hcommit]
  simp [mediumGate, hrate, strEqFold, h0, h2, hlt, hsucc]

/-- On the sixth tick after a reset the gate resets the counter and lets the
resync proceed regardless of commit equality. -/
theorem mediumGate_force (ctx : GitSubscriberCtx) (s : SubscriberItemState) (c : String)
    (hrate : ctx.reconcileRate = "medium") (hne : s.commitID ≠ "")
    (hge : ¬ s.count + 1 < 6) :
    mediumGate ctx s c = ({ s with count := 0 }, false) := by
  have h0 : (s.commitID == "") = false := by simp [hne]
  simp [mediumGate, hrate, strEqFold, h0, hge]

/-- Outside the "medium" tier the gate neither skips nor changes state. -/
theorem mediumGate_not_medium (ctx : GitSubscriberCtx) (s : SubscriberItemState) (c : String)
    (hrate : strEqFold ctx.reconcileRate "medium" = false) :
    mediumGate ctx s c = (s, false) := by
  simp [mediumGate, hrate]

/-- The non-webhook, non-skipping tick with a successful clone and sort runs
the bucket phase on the gate-updated state with a fresh aggregate. -/
theorem doSubscription_run (ctx : GitSubscriberCtx) (env : TickEnv)
    (s s' : SubscriberItemState) (c : String) (b : SortedBuckets)
    (hweb : ctx.webhookEnabled = false) (hclone : env.cloneResult = .ok c)
    (hmg : mediumGate ctx s c = (s', false)) (hsort : env.sortResult = .ok b) :
    doSubscription ctx env s = bucketPhase ctx env { s' with resources := [] } c b := by
  simp [doSubscription, hweb, hclone, hmg, hsort]

/-- The tick skipped by the medium gate returns nil after only the clone. -/
theorem doSubscription_skip (ctx : GitSubscriberCtx) (env : TickEnv)
    (s s' : SubscriberItemState) (c : String)
    (hweb : ctx.webhookEnabled = false) (hclone : env.cloneResult = .ok c)
    (hmg : mediumGate ctx s c = (s', true)) :
    doSubscription ctx env s = (s', none, [Action.updateLastUpdateTime, Action.clone]) := by
  simp [doSubscription, hweb, hclone, hmg]

/-- A failing classification aborts the tick right after the clone. -/
theorem doSubscription_sortErr (ctx : GitSubscriberCtx) (env : TickEnv)
    (s s' : SubscriberItemState) (c e : String)
    (hweb : ctx.webhookEnabled = false) (hclone : env.cloneResult = .ok c)
    (hmg : mediumGate ctx s c = (s', false)) (hsort : env.sortResult = .error e) :
    doSubscription ctx env s =
      ({ s' with resources := [], successful := false }, some e,
        [Action.updateLastUpdateTime, Action.clone, Action.classify]) := by
  simp [doSubscription, hweb, hclone, hmg, hsort]

/-- Regardless of the branch taken afterwards, the bucket phase never touches
the tick counter and always includes the classification in its trace. -/
theorem bucketPhase_count_classify (ctx : GitSubscriberCtx) (env : TickEnv)
    (s : SubscriberItemState) (c : String) (b : SortedBuckets) :
    (bucketPhase ctx env s c b).1.count = s.count ∧
    Action.classify ∈ (bucketPhase ctx env s c b).2.2 := by
  unfold bucketPhase applyPhase
  dsimp only
  split
  · exact ⟨rfl, by simp⟩
  · split
    · exact ⟨rfl, by simp⟩
    · exact ⟨rfl, by simp⟩

/-- C3: in the medium tier with a known, unchanged commit and a successful
last apply, counting the counter-resetting resync tick as tick 1, ticks 2
through 6 (counter values 0 through 4 at entry) return nil after only the
clone, leaving the state untouched except the counter; tick 7 (counter 5 at
entry) resets the counter to 0 and proceeds into classification, forcing a
full resync although the commit is unchanged. -/
theorem c3_medium_skip_window_then_forced_resync
    (ctx : GitSubscriberCtx) (env : TickEnv) (s : SubscriberItemState) (c : String)
    (hrate : ctx.reconcileRate = "medium") (hweb : ctx.webhookEnabled = false)
    (hclone : env.cloneResult = .ok c) (hc : c ≠ "")
    (hcommit : s.commitID = c) (hsucc : s.successful = true) :
    (∀ i, 1 ≤ i → i ≤ 5 →
      doSubscription ctx env { s with count := i - 1 } =
        ({ s with count := i }, none, [Action.updateLastUpdateTime, Action.clone])) ∧
    (doSubscription ctx env { s with count := 5 }).1.count = 0 ∧
    Action.classify ∈ (doSubscription ctx env { s with count := 5 }).2.2 := by
  have hne : s.commitID ≠ "" := by rw [hcommit]; exact hc
  refine ⟨?_, ?_⟩
  · intro i h1 h5
    have hgate := mediumGate_skip ctx { s with count := i - 1 } c hrate hne
      (by simp; omega) hcommit hsucc
    have hstep : ({ s with count := i - 1 } : SubscriberItemState).count + 1 = i := by
      simp; omega
    rw [hstep] at hgate
    exact doSubscription_skip ctx env _ _ c hweb hclone hgate
  · have hgate := mediumGate_force ctx { s with count := 5 } c hrate hne (by simp)
    cases hsort : env.sortResult with
    | error e =>
      rw [doSubscription_sortErr ctx env _ _ c e hweb hclone hgate hsort]
      exact ⟨rfl, by simp⟩
    | ok b =>
      rw [doSubscription_run ctx env _ _ c b hweb hclone hgate hsort]
      exact bucketPhase_count_classify ctx env _ c b

/-- The environment of a skipped medium tick: the clone returns commit abc. -/
def envSkipEx : TickEnv := ⟨.ok "abc", .error "classification unused", fun _ => none⟩

/-- The item state just after a successful resync that reset the counter. -/
def sResyncEx : SubscriberItemState := ⟨"abc", 0, true, [], [], [], [], [], [], none⟩

/-- Witness for C3: the tick at counter 2 skips, the tick at counter 5 resets
the counter and classifies. -/
theorem c3_medium_skip_window_then_forced_resync_witness :
    doSubscription ctxMed envSkipEx { sResyncEx with count := 3 - 1 } =
      ({ sResyncEx with count := 3 }, none, [Action.updateLastUpdateTime, Action.clone]) ∧
    (doSubscription ctxMed envSkipEx { sResyncEx with count := 5 }).1.count = 0 ∧
    Action.classify ∈ (doSubscription ctxMed envSkipEx { sResyncEx with count := 5 }).2.2 :=
  have h := c3_medium_skip_window_then_forced_resync ctxMed envSkipEx sResyncEx "abc"
    rfl rfl rfl (by decide) rfl rfl
  ⟨h.1 3 (by decide) (by decide), h.2.1, h.2.2⟩

/-- The item state at tick-counter 2 with the same commit already applied. -/
def sTick2Ex : SubscriberItemState := ⟨"abc", 2, true, [], [], [], [], [], [], none⟩

/-- C4 counterexample: in the claimed scenario (medium rate, identical commit,
previous tick successful, counter 2) the tick still performs the repository
clone, because doSubscription fetches before the commit comparison; the claim
that no repository fetch happens is false. -/
theorem c4_counterexample_fetch_still_performed :
    Action.clone ∈ (doSubscription ctxMed envSkipEx sTick2Ex).2.2 ∧
    (doSubscription ctxMed envSkipEx sTick2Ex).2.2 =
      [Action.updateLastUpdateTime, Action.clone] :=
  ⟨by decide, by decide⟩

/-- C4 (amended): in that scenario the tick performs the fetch but no
classification and no apply, returns nil, writes the unchanged Subscribed
status with an empty message once, and leaves the whole item state unchanged
except the tick counter. -/
theorem c4_medium_tick2_fetch_only
    (ctx : GitSubscriberCtx) (env : TickEnv) (s : SubscriberItemState) (c : String) (r : Nat)
    (hrate : ctx.reconcileRate = "medium") (hweb : ctx.webhookEnabled = false)
    (hclone : env.cloneResult = .ok c) (hc : c ≠ "")
    (hcount : s.count = 2) (hcommit : s.commitID = c) (hsucc : s.successful = true) :
    doSubscriptionWithRetries ctx env r s =
      ({ s with count := 3 }, [(SubPhase.subscribed, "")],
        [Action.updateLastUpdateTime, Action.clone]) := by
  have hne : s.commitID ≠ "" := by rw [hcommit]; exact hc
  have hgate := mediumGate_skip ctx s c hrate hne (by omega) hcommit hsucc
  rw [hcount] at hgate
  have htick : doSubscription ctx env s =
      ({ s with count := 3 }, none, [Action.updateLastUpdateTime, Action.clone]) :=
    doSubscription_skip ctx env s _ c hweb hclone hgate
  cases r with
  | zero => simp [doSubscriptionWithRetries, htick]
  | succ n => simp [doSubscriptionWithRetries, htick, hsucc]

/-- Witness for the amended C4 tick at the concrete scenario. -/
theorem c4_medium_tick2_fetch_only_witness :
    doSubscriptionWithRetries ctxMed envSkipEx 3 sTick2Ex =
      ({ sTick2Ex with count := 3 }, [(SubPhase.subscribed, "")],
        [Action.updateLastUpdateTime, Action.clone]) :=
  c4_medium_tick2_fetch_only ctxMed envSkipEx sTick2Ex "abc" 3
    rfl rfl rfl (by decide) rfl rfl rfl

/-! ### C5, C6, C9: failure handling of the bucket phase -/

/-- When the kustomize loop reports an error, the aggregate it returns is
empty: the failing root cleared everything collected before it. -/
theorem subscribeKustomizations_err_clears (ctx : GitSubscriberCtx)
    (dirs : List KustomizeDirInput) :
    ∀ rs m, (subscribeKustomizations ctx dirs rs).2.1 = some m →
      (subscribeKustomizations ctx dirs rs).1 = [] := by
  induction dirs with
  | nil =>
    intro rs m h
    simp [subscribeKustomizations] at h
  | cons d rest ih =>
    intro rs m h
    unfold subscribeKustomizations at h ⊢
    cases hov : d.overrideErr with
    | some e => rfl
    | none =>
      rw [hov] at h
      dsimp only at h ⊢
      cases hb : d.buildResult with
      | error e => rfl
      | ok cs =>
        rw [hb] at h
        dsimp only at h ⊢
        exact ih _ m h

/-- The hard-failure guard of the bucket phase: an empty aggregate with the
successful flag down returns the capped concatenated error message and no
state clearing, and the apply engine is never invoked. -/
theorem bucketPhase_hard_fail (ctx : GitSubscriberCtx) (env : TickEnv)
    (s : SubscriberItemState) (c : String) (b : SortedBuckets)
    (hempty : (runBuckets ctx b).resources = [])
    (hfail : (s.successful && !(bucketsFailed (runBuckets ctx b))) = false) :
    (bucketPhase ctx env s c b).2.1 = some ((tickErrMsg (runBuckets ctx b).e1
      (runBuckets ctx b).e2 (runBuckets ctx b).e3 (runBuckets ctx b).eK
      (runBuckets ctx b).eH).take 2000) ∧
    (bucketPhase ctx env s c b).1.resources = [] ∧
    (bucketPhase ctx env s c b).1.successful = false ∧
    Action.applyResources ∉ (bucketPhase ctx env s c b).2.2 := by
  unfold bucketPhase
  dsimp only
  rw [hfail, hempty]
  refine ⟨by simp, by simp, by simp, ?_⟩
  cases hk : (runBuckets ctx b).eK <;> simp [hk]

/-- C6: for a tick whose bucket aggregation ends with an empty resource list
and the successful flag down, doSubscription returns the per-bucket error
strings concatenated and capped at 2000 characters, and never calls
ProcessSubResources. -/
theorem c6_empty_failed_aggregate_is_hard_failure
    (ctx : GitSubscriberCtx) (env : TickEnv) (s s' : SubscriberItemState) (c : String)
    (b : SortedBuckets)
    (hweb : ctx.webhookEnabled = false) (hclone : env.cloneResult = .ok c)
    (hmg : mediumGate ctx s c = (s', false)) (hsort : env.sortResult = .ok b)
    (hempty : (runBuckets ctx b).resources = [])
    (hfail : (s'.successful && !(bucketsFailed (runBuckets ctx b))) = false) :
    (doSubscription ctx env s).2.1 = some ((tickErrMsg (runBuckets ctx b).e1
      (runBuckets ctx b).e2 (runBuckets ctx b).e3 (runBuckets ctx b).eK
      (runBuckets ctx b).eH).take 2000) ∧
    Action.applyResources ∉ (doSubscription ctx env s).2.2 := by
  rw [doSubscription_run ctx env s s' c b hweb hclone hmg hsort]
  have h := bucketPhase_hard_fail ctx env { s' with resources := [] } c b hempty hfail
  exact ⟨h.1, h.2.2.2⟩

/-- A classification whose crds-and-namespaces bucket fails to read, with
everything else empty. -/
def bCrdErrEx : SortedBuckets := ⟨[], [], [.readErr "crd read failed"], [], [], []⟩

def envCrdErrEx : TickEnv := ⟨.ok "abc", .ok bCrdErrEx, fun _ => none⟩

/-- An item state from before the tick: no commit yet, last tick successful. -/
def sPrevEx : SubscriberItemState := ⟨"", 0, true, [], [], [], [], [], [], none⟩

/-- Witness for C6 at a tick whose only bucket outcome is a crd read error. -/
theorem c6_empty_failed_aggregate_is_hard_failure_witness :
    (doSubscription ctxPlain envCrdErrEx sPrevEx).2.1 =
      some ((tickErrMsg (runBuckets ctxPlain bCrdErrEx).e1 (runBuckets ctxPlain bCrdErrEx).e2
        (runBuckets ctxPlain bCrdErrEx).e3 (runBuckets ctxPlain bCrdErrEx).eK
        (runBuckets ctxPlain bCrdErrEx).eH).take 2000) ∧
    Action.applyResources ∉ (doSubscription ctxPlain envCrdErrEx sPrevEx).2.2 :=
  c6_empty_failed_aggregate_is_hard_failure ctxPlain envCrdErrEx sPrevEx sPrevEx "abc"
    bCrdErrEx rfl rfl rfl rfl rfl rfl

/-- A kustomize root whose build fails. -/
def failingKustomizeDir : KustomizeDirInput := ⟨none, .error "kustomize build failed"⟩

/-- A helm release manifest generated from the chart index of the repository. -/
def helmManifestEx : Manifest :=
  ⟨"apps.open-cluster-management.io/v1", "HelmRelease", "chart1", "sub-ns", [], []⟩

/-- Buckets with one failing kustomize root and one helm chart entry. -/
def bHelmEx : SortedBuckets := ⟨[], [failingKustomizeDir], [], [], [], [.ok helmManifestEx]⟩

def envHelmEx : TickEnv := ⟨.ok "abc", .ok bHelmEx, fun _ => none⟩

/-- C5 counterexample: a kustomize build failure clears the aggregate, but
the tick then continues into the helm bucket, which repopulates it; with one
helm chart present the final aggregate of the tick is the helm release (not
empty) and the tick even returns nil after a successful apply, contradicting
the claimed empty list and failed tick. -/
theorem c5_counterexample_helm_after_kustomize_failure :
    (runBuckets ctxPlain bHelmEx).eK = some "kustomize build failed" ∧
    (runBuckets ctxPlain bHelmEx).resources = [(helmManifestEx, helmGvk)] ∧
    (doSubscription ctxPlain envHelmEx sPrevEx).2.1 = none ∧
    Action.applyResources ∈ (doSubscription ctxPlain envHelmEx sPrevEx).2.2 :=
  ⟨rfl, rfl, rfl, by decide⟩

/-- C5 (amended): a kustomize override or build failure discards every
resource collected before it and marks the tick unsuccessful; when the tick
renders no helm chart entries, the final aggregate is empty and the tick
returns the capped error without reaching the apply engine. -/
theorem c5_kustomize_failure_empty_aggregate_when_no_helm
    (ctx : GitSubscriberCtx) (env : TickEnv) (s s' : SubscriberItemState) (c m : String)
    (b : SortedBuckets)
    (hweb : ctx.webhookEnabled = false) (hclone : env.cloneResult = .ok c)
    (hmg : mediumGate ctx s c = (s', false)) (hsort : env.sortResult = .ok b)
    (hK : (subscribeKustomizations ctx b.kustomizeDirs
        ((subscribeResources ctx b.crdsAndNamespaceFiles).1 ++
          (subscribeResources ctx b.rbacFiles).1 ++
          (subscribeResources ctx b.otherFiles).1)).2.1 = some m)
    (hH : b.indexFile = []) :
    (doSubscription ctx env s).1.resources = [] ∧
    (doSubscription ctx env s).1.successful = false ∧
    (doSubscription ctx env s).2.1.isSome = true ∧
    Action.applyResources ∉ (doSubscription ctx env s).2.2 := by
  have hclears := subscribeKustomizations_err_clears ctx b.kustomizeDirs _ m hK
  have hres : (runBuckets ctx b).resources = [] := by
    unfold runBuckets
    dsimp only
    rw [hclears, hH]
    rfl
  have heK : (runBuckets ctx b).eK = some m := by
    unfold runBuckets
    dsimp only
    rw [hK]
  have hfail : (s'.successful && !(bucketsFailed (runBuckets ctx b))) = false := by
    have hbf : bucketsFailed (runBuckets ctx b) = true := by
      simp [bucketsFailed, heK]
    simp [hbf]
  rw [doSubscription_run ctx env s s' c b hweb hclone hmg hsort]
  have h := bucketPhase_hard_fail ctx env { s' with resources := [] } c b hres hfail
  refine ⟨h.2.1, h.2.2.1, ?_, h.2.2.2⟩
  rw [h.1]
  rfl

/-- Buckets with one failing kustomize root and no helm entries. -/
def bNoHelmEx : SortedBuckets := ⟨[], [failingKustomizeDir], [], [], [], []⟩

def envNoHelmEx : TickEnv := ⟨.ok "abc", .ok bNoHelmEx, fun _ => none⟩

/-- Witness for the amended C5 statement at a concrete failing kustomize root. -/
theorem c5_kustomize_failure_empty_aggregate_when_no_helm_witness :
    (doSubscription ctxPlain envNoHelmEx sPrevEx).1.resources = [] ∧
    (doSubscription ctxPlain envNoHelmEx sPrevEx).1.successful = false ∧
    (doSubscription ctxPlain envNoHelmEx sPrevEx).2.1.isSome = true ∧
    Action.applyResources ∉ (doSubscription ctxPlain envNoHelmEx sPrevEx).2.2 :=
  c5_kustomize_failure_empty_aggregate_when_no_helm ctxPlain envNoHelmEx sPrevEx sPrevEx
    "abc" "kustomize build failed" bNoHelmEx rfl rfl rfl rfl rfl rfl

/-- A plain manifest classified into the other-files bucket. -/
def plainManifestEx : Manifest := ⟨"v1", "ConfigMap", "cm1", "", [], []⟩

def bOtherEx : SortedBuckets := ⟨[], [], [], [], [.chunks [some plainManifestEx]], []⟩

def envApplyFailEx : TickEnv := ⟨.ok "abc", .ok bOtherEx, fun _ => some "apply failed"⟩

/-- C9 counterexample: a tick that fails inside ProcessSubResources returns
the error with the aggregate resources and the classified buckets still
populated; the buckets are not cleared after a failed tick. -/
theorem c9_counterexample_buckets_survive_failed_tick :
    (doSubscription ctxPlain envApplyFailEx sPrevEx).2.1 = some "apply failed" ∧
    (doSubscription ctxPlain envApplyFailEx sPrevEx).1.resources =
      [({ plainManifestEx with nspace := "sub-ns" }, ⟨"", "v1", "ConfigMap"⟩)] ∧
    (doSubscription ctxPlain envApplyFailEx sPrevEx).1.otherFiles =
      [.chunks [some plainManifestEx]] :=
  ⟨rfl, by decide, by decide⟩

/-- C9 (amended): the buckets are cleared to empty exactly by the fully
successful tick: whenever doSubscription returns nil after actually invoking
the apply engine, the post-state has every transient bucket, the aggregate
and the helm index cleared and the successful flag set.  (A failed tick
leaves them populated, but each working tick resets the aggregate before
classification, so a failed partial build never reaches a later apply.) -/
theorem c9_buckets_cleared_exactly_after_successful_apply
    (ctx : GitSubscriberCtx) (env : TickEnv) (s : SubscriberItemState) :
    (doSubscription ctx env s).2.1 = none →
    Action.applyResources ∈ (doSubscription ctx env s).2.2 →
    ((doSubscription ctx env s).1.resources = [] ∧
     (doSubscription ctx env s).1.chartDirs = [] ∧
     (doSubscription ctx env s).1.kustomizeDirs = [] ∧
     (doSubscription ctx env s).1.crdsAndNamespaceFiles = [] ∧
     (doSubscription ctx env s).1.rbacFiles = [] ∧
     (doSubscription ctx env s).1.otherFiles = [] ∧
     (doSubscription ctx env s).1.indexFile = none ∧
     (doSubscription ctx env s).1.successful = true) := by
  unfold doSubscription
  split
  · intro _ happ
    simp at happ
  · split
    · intro hok _
      simp at hok
    · dsimp only
      split
      · intro _ happ
        simp at happ
      · split
        · intro hok _
          simp at hok
        · unfold bucketPhase applyPhase
          dsimp only
          split
          · intro hok _
            simp at hok
          · split
            · intro hok _
              simp at hok
            · intro _ _
              exact ⟨rfl, rfl, rfl, rfl, rfl, rfl, rfl, rfl⟩

def envApplyOkEx : TickEnv := ⟨.ok "abc", .ok bOtherEx, fun _ => none⟩

/-- Witness for the amended C9 statement at a concrete fully successful tick. -/
theorem c9_buckets_cleared_exactly_after_successful_apply_witness :
    (doSubscription ctxPlain envApplyOkEx sPrevEx).1.resources = [] ∧
    (doSubscription ctxPlain envApplyOkEx sPrevEx).1.chartDirs = [] ∧
    (doSubscription ctxPlain envApplyOkEx sPrevEx).1.kustomizeDirs = [] ∧
    (doSubscription ctxPlain envApplyOkEx sPrevEx).1.crdsAndNamespaceFiles = [] ∧
    (doSubscription ctxPlain envApplyOkEx sPrevEx).1.rbacFiles = [] ∧
    (doSubscription ctxPlain envApplyOkEx sPrevEx).1.otherFiles = [] ∧
    (doSubscription ctxPlain envApplyOkEx sPrevEx).1.indexFile = none ∧
    (doSubscription ctxPlain envApplyOkEx sPrevEx).1.successful = true :=
  c9_buckets_cleared_exactly_after_successful_apply ctxPlain envApplyOkEx sPrevEx
    rfl (by decide)

end MCSub
